import Mathlib

/-!
Verification of the `US_Flight_Delays` ETL pipeline (`src/pipeline.py`).

The pipeline has two stages:

* `downloading_flight_data` (the Fetcher): iterates a year/month grid,
  downloads one zip archive per period into a local directory, skipping
  periods whose file already exists and deleting partially written files
  when a download raises.
* `extract_and_filter` (the Transformer): extracts the first CSV member of
  each archive, loads a fixed 15-column subset of the concatenated CSVs,
  coerces the flight-date column, filters rows touching a fixed set of six
  airport codes, writes one parquet artifact and then deletes the extracted
  CSVs underneath the script-level `DATA_DIR` global.

The embedding below models the filesystem as an association list from path
strings to file data, the network as an oracle from (year, month) to a
download event, and the dataframe engine's CSV loading / filtering as pure
list functions.  Console output, `time.sleep`, and directory creation are
not modelled (they have no effect on the properties below).
-/

set_option autoImplicit false

namespace FlightPipeline

/-- A filesystem directory tree flattened to an association list from full
path strings to file contents.  Later entries are shadowed by earlier ones,
and `storeWrite` prepends, so the head occurrence of a path is its current
content. -/
abbrev Store (α : Type) := List (String × α)

/-- Content of the file at path `p`, if a file exists there. -/
def storeLookup {α : Type} : Store α → String → Option α
  | [], _ => none
  | (q, v) :: fs, p => if p = q then some v else storeLookup fs p

/-- Create or overwrite the file at path `p` with content `v`
(`open(p, "wb")` / `to_parquet`). -/
def storeWrite {α : Type} (fs : Store α) (p : String) (v : α) : Store α :=
  (p, v) :: fs

/-- Delete the file at path `p` (`Path.unlink`). -/
def storeErase {α : Type} : Store α → String → Store α
  | [], _ => []
  | (q, v) :: fs, p => if q = p then storeErase fs p else (q, v) :: storeErase fs p

/-- `Path.exists()`: whether a file is present at path `p`. -/
def storeExists {α : Type} (fs : Store α) (p : String) : Bool :=
  (storeLookup fs p).isSome

/-! ## The Fetcher: `downloading_flight_data` (pipeline.py lines 17–82)

The network is an oracle mapping a period `(year, month)` to the event the
single `requests.get` for that period produces. -/

/-- Outcome of the one `requests.get` call a period performs:
a response with a status code and a streamed body (a list of chunks),
an exception raised by the request itself (before the output file is
opened), or an exception raised while streaming to disk after `written`
chunks were already written. -/
inductive DownloadEvent where
  | resp (status : Nat) (body : List Nat)
  | reqExn
  | writeExn (written : List Nat)
deriving Repr, DecidableEq

/-- `filename = f"On_Time_Reporting_Carrier_On_Time_Performance_1987_present_{year}_{month}.zip"` -/
def zipName (year month : Nat) : String :=
  "On_Time_Reporting_Carrier_On_Time_Performance_1987_present_"
    ++ toString year ++ "_" ++ toString month ++ ".zip"

/-- `file_path = DATA_DIR / filename` -/
def filePath (output_dir : String) (year month : Nat) : String :=
  output_dir ++ "/" ++ zipName year month

/-- The period grid: `for year in range(start_year, end_year + 1): for month in range(1, 13)`. -/
def periods (start_year end_year : Nat) : List (Nat × Nat) :=
  (List.range' start_year (end_year + 1 - start_year)).flatMap
    (fun y => (List.range' 1 12).map (fun m => (y, m)))

/-- State threaded through the Fetcher's loop: the filesystem, the
`successful_downloads` accumulator, and the number of `requests.get`
calls issued so far. -/
structure FetchResult where
  fs : Store (List Nat)
  successful_downloads : List String
  requests : Nat
deriving Repr, DecidableEq

/-- The body of the Fetcher's per-period loop (pipeline.py lines 35–72):
skip-and-record when the file already exists; otherwise issue the request,
skip on a non-200 status, stream the body to disk and record on success,
and on an exception delete the partially written file if it exists. -/
def fetchStep (oracle : Nat → Nat → DownloadEvent) (output_dir : String)
    (st : FetchResult) (ym : Nat × Nat) : FetchResult :=
  let file_path := filePath output_dir ym.1 ym.2
  if storeExists st.fs file_path then
    { st with successful_downloads := st.successful_downloads ++ [file_path] }
  else
    match oracle ym.1 ym.2 with
    | .resp status body =>
      if status ≠ 200 then
        { st with requests := st.requests + 1 }
      else
        { fs := storeWrite st.fs file_path body,
          successful_downloads := st.successful_downloads ++ [file_path],
          requests := st.requests + 1 }
    | .reqExn => { st with requests := st.requests + 1 }
    | .writeExn written =>
      { st with fs := storeErase (storeWrite st.fs file_path written) file_path,
                requests := st.requests + 1 }

/-- `downloading_flight_data(start_year, end_year, output_dir)` run against
initial filesystem `fs0` and network oracle `oracle`. -/
def downloading_flight_data (oracle : Nat → Nat → DownloadEvent)
    (start_year end_year : Nat) (output_dir : String)
    (fs0 : Store (List Nat)) : FetchResult :=
  (periods start_year end_year).foldl (fetchStep oracle output_dir)
    { fs := fs0, successful_downloads := [], requests := 0 }

/-! ## The Transformer: `extract_and_filter` (pipeline.py lines 87–176)

Archives, CSV payloads and the dataframe operations are modelled as pure
data.  `zipfile.ZipFile` is an oracle from an archive path to the archive's
member list (`none` models a corrupt/unreadable archive, whose exception the
source catches per archive); `dd.to_datetime(..., errors="coerce")` is an
oracle `parseDate` returning `none` for unparseable dates (the `NaT`
sentinel); a failing `csv.unlink()` in the cleanup loop is an oracle
`deleteFails`.  The module-level global `DATA_DIR`, which
`extract_and_filter` reads although only the `__main__` block assigns it,
is passed as an `Option String`: `none` models the unbound global (reading
it raises `NameError`). -/

/-- One CSV payload: its header line and its data rows, all cells raw text. -/
structure Csv where
  header : List String
  rows : List (List String)
deriving Repr, DecidableEq

/-- One zip archive: its member list in `namelist()` order, each member a
name plus its CSV payload. -/
structure Archive where
  entries : List (String × Csv)
deriving Repr, DecidableEq

/-- A row of the loaded dataframe: column names paired with cell values,
`none` being a missing value (`NaN`/`NaT`). -/
abbrev Row := List (String × Option String)

/-- Data stored at a path in the Transformer's filesystem: an extracted CSV
payload or the written parquet artifact. -/
inductive FileData where
  | csv (c : Csv)
  | parquet (rows : List Row)
deriving Repr, DecidableEq

/-- `suf` is a suffix of `s` (`str.endswith`). -/
def strEndsWith (s suf : String) : Bool :=
  List.isSuffixOf suf.data s.data

/-- `pre` is a prefix of `s`; used to model a path lying under a directory
(`Path.rglob` from that directory can reach it). -/
def strStartsWith (s pre : String) : Bool :=
  List.isPrefixOf pre.data s.data

/-- `Path.parent`: the path up to (excluding) the last separator. -/
def parentDir (p : String) : String :=
  ⟨((p.data.reverse.dropWhile (fun c => c ≠ '/')).drop 1).reverse⟩

/-- `use_cols`, the fixed 15-column allowlist (pipeline.py lines 127–131). -/
def use_cols : List String :=
  ["FlightDate", "Reporting_Airline", "Origin", "Dest", "DepTime", "ArrTime",
   "DepDelay", "ArrDelay", "ArrDelayMinutes", "Cancelled", "Diverted",
   "Distance", "AirTime", "CRSDepTime", "CRSArrTime"]

/-- `top_us_airports`, the fixed 6-code airport allowlist (lines 146–154). -/
def top_us_airports : List String :=
  ["ATL", "DFW", "DEN", "ORD", "LAX", "CLT"]

/-- Index of the first occurrence of column `c` in a header. -/
def idxOf : List String → String → Option Nat
  | [], _ => none
  | h :: t, c => if c = h then some 0 else (idxOf t c).map (· + 1)

/-- Loading one raw CSV row under `usecols = lambda c: c in use_cols`: the
retained columns are the header columns that are members of `use_cols`, in
header order, each paired with the cell at that column's position (a short
row yields a missing value). -/
def projectRow (header : List String) (row : List String) : Row :=
  (header.filter (fun c => use_cols.contains c)).map
    (fun c => (c, (idxOf header c).bind (fun i => row.get? i)))

/-- `dd.read_csv(csv_files, usecols=..., ...)`: every row of every CSV,
projected to the allowlisted columns of its own file's header, concatenated
in file order. -/
def loadRows : List Csv → List Row
  | [] => []
  | c :: cs => c.rows.map (projectRow c.header) ++ loadRows cs

/-- `ddf["FlightDate"] = dd.to_datetime(ddf["FlightDate"], errors="coerce")`:
the flight-date cell is re-parsed; an unparseable or missing value becomes
the null-date sentinel (`NaT`, modelled as `none`).  Other cells are kept. -/
def cleanRow (parseDate : String → Option String) (r : Row) : Row :=
  r.map (fun kv => if kv.1 = "FlightDate" then (kv.1, kv.2.bind parseDate) else kv)

/-- `Series.isin`: a missing value is never a member. -/
def isin (v : Option String) (s : List String) : Bool :=
  match v with
  | none => false
  | some x => s.contains x

/-- Value of column `c` in a loaded row (first occurrence; absent column
behaves as missing). -/
def cellValue : Row → String → Option String
  | [], _ => none
  | (k, v) :: r, c => if c = k then v else cellValue r c

/-- `mask = ddf["Origin"].isin(top_us_airports) | ddf["Dest"].isin(top_us_airports)` -/
def rowMask (r : Row) : Bool :=
  isin (cellValue r "Origin") top_us_airports
    || isin (cellValue r "Dest") top_us_airports

/-- `main_flights = ddf[mask].compute()`: the concatenated projected rows,
flight-date cleaned, restricted to rows whose origin or destination code is
in the airport allowlist.  This is exactly the table passed to
`to_parquet`. -/
def mainFlights (parseDate : String → Option String) (csvs : List Csv) : List Row :=
  ((loadRows csvs).map (cleanRow parseDate)).filter rowMask

/-- The fixed artifact path `processed_path / "flights_2020_2025_canada_cleaned.parquet"`. -/
def processedFile (processed_dir : String) : String :=
  processed_dir ++ "/flights_2020_2025_canada_cleaned.parquet"

/-- State threaded through the Transformer's extraction loop: the
filesystem, the `csv_files` accumulator, and the number of archives the
loop has attempted to open with `zipfile.ZipFile`. -/
structure ExtractResult where
  fs : Store FileData
  csv_files : List String
  opened : Nat
deriving Repr, DecidableEq

/-- Body of the extraction loop (pipeline.py lines 104–117): open the
archive, take the first member whose name ends in `.csv`, extract it next
to the archive unless a file is already there, and record its path.  A
corrupt archive or an archive with no CSV member raises inside the `try`
and is skipped. -/
def extractStep (zipOf : String → Option Archive)
    (st : ExtractResult) (file : String) : ExtractResult :=
  match zipOf file with
  | none => { st with opened := st.opened + 1 }
  | some z =>
    match z.entries.find? (fun e => strEndsWith e.1 ".csv") with
    | none => { st with opened := st.opened + 1 }
    | some entry =>
      let temp_csv := parentDir file ++ "/" ++ entry.1
      { fs := if storeExists st.fs temp_csv then st.fs
              else storeWrite st.fs temp_csv (.csv entry.2),
        csv_files := st.csv_files ++ [temp_csv],
        opened := st.opened + 1 }

/-- The extraction loop over all input archives. -/
def extractLoop (zipOf : String → Option Archive) (zip_files : List String)
    (fs0 : Store FileData) : ExtractResult :=
  zip_files.foldl (extractStep zipOf) { fs := fs0, csv_files := [], opened := 0 }

/-- Reading one recorded CSV path back from the filesystem (the dataframe
engine reads the paths in `csv_files`; in every run of the model each such
path holds a CSV). -/
def readCsvFile (fs : Store FileData) (p : String) : Csv :=
  match storeLookup fs p with
  | some (.csv c) => c
  | _ => { header := [], rows := [] }

/-- The cleanup loop (lines 164–170): delete every `*.csv` file under the
directory `d` (`DATA_DIR.rglob("*.csv")`), silently keeping any file whose
deletion raises (`except: pass`). -/
def cleanupCsvs (deleteFails : String → Bool) (d : String)
    (fs : Store FileData) : Store FileData :=
  fs.filter (fun e =>
    !(strStartsWith e.1 (d ++ "/") && strEndsWith e.1 ".csv" && !deleteFails e.1))

/-- Result of `extract_and_filter`: the filesystem, the returned value
(`some` artifact path or `None`), whether the call escaped with the
`NameError` raised by reading the unbound `DATA_DIR` global, and how many
archives were opened. -/
structure TransformResult where
  fs : Store FileData
  result : Option String
  nameError : Bool
  opened : Nat
deriving Repr, DecidableEq

/-- `extract_and_filter(zip_files, processed_dir)` run against initial
filesystem `fs0`, archive oracle `zipOf`, date parser `parseDate`, the
module global `DATA_DIR` (`dataDir`), and deletion-failure oracle
`deleteFails`.  Stages: short-circuit on an existing artifact; extraction
loop; abort when no CSV was recorded; load, clean, filter; write the
parquet artifact; cleanup (which raises `NameError` when `DATA_DIR` is
unbound, after the artifact was already written). -/
def extract_and_filter (zipOf : String → Option Archive)
    (parseDate : String → Option String) (dataDir : Option String)
    (deleteFails : String → Bool) (zip_files : List String)
    (processed_dir : String) (fs0 : Store FileData) : TransformResult :=
  let processed_file := processedFile processed_dir
  if storeExists fs0 processed_file then
    { fs := fs0, result := some processed_file, nameError := false, opened := 0 }
  else
    let ex := extractLoop zipOf zip_files fs0
    if ex.csv_files.isEmpty then
      { fs := ex.fs, result := none, nameError := false, opened := ex.opened }
    else
      let csvs := ex.csv_files.map (readCsvFile ex.fs)
      let main_flights := mainFlights parseDate csvs
      let fs2 := storeWrite ex.fs processed_file (.parquet main_flights)
      match dataDir with
      | none => { fs := fs2, result := none, nameError := true, opened := ex.opened }
      | some d =>
        { fs := cleanupCsvs deleteFails d fs2, result := some processed_file,
          nameError := false, opened := ex.opened }

/-- Extraction fails for archive path f: opening it raises (corrupt or
missing archive, zipOf f = none), or no member name ends in .csv (the
namelist comprehension is empty and indexing it raises IndexError). -/
def extractFails (zipOf : String → Option Archive) (f : String) : Prop :=
  zipOf f = none ∨
    ∃ a, zipOf f = some a ∧ a.entries.find? (fun e => strEndsWith e.1 ".csv") = none

/-! ## Concrete scenarios used by witnesses and counterexamples -/

/-- The identity date parser: every raw flight date is already a valid date. -/
def parseId : String → Option String := some

/-- A filesystem on which unlink never fails. -/
def neverFails : String → Bool := fun _ => false

/-- A two-column CSV with one row touching ATL. -/
def csvATL : Csv := ⟨["Origin", "Dest"], [["ATL", "JFK"]]⟩

/-- Every archive opens and contains csvATL as x.csv. -/
def zipOfATL : String → Option Archive := fun _ => some ⟨[("x.csv", csvATL)]⟩

/-- A 14-column CSV: all allowlisted columns except AirTime, one ATL row. -/
def csv14 : Csv :=
  ⟨["FlightDate", "Reporting_Airline", "Origin", "Dest", "DepTime", "ArrTime",
    "DepDelay", "ArrDelay", "ArrDelayMinutes", "Cancelled", "Diverted",
    "Distance", "CRSDepTime", "CRSArrTime"],
   [["2021-01-01", "AA", "ATL", "JFK", "1", "2", "3", "4", "5", "0", "0",
     "100", "7", "8"]]⟩

/-- Every archive opens and contains csv14 as y.csv. -/
def zipOf14 : String → Option Archive := fun _ => some ⟨[("y.csv", csv14)]⟩

/-- The artifact row the csv14 scenario produces: 14 columns, no AirTime. -/
def row14 : Row :=
  [("FlightDate", some "2021-01-01"), ("Reporting_Airline", some "AA"),
   ("Origin", some "ATL"), ("Dest", some "JFK"), ("DepTime", some "1"),
   ("ArrTime", some "2"), ("DepDelay", some "3"), ("ArrDelay", some "4"),
   ("ArrDelayMinutes", some "5"), ("Cancelled", some "0"),
   ("Diverted", some "0"), ("Distance", some "100"),
   ("CRSDepTime", some "7"), ("CRSArrTime", some "8")]

/-- A CSV whose header is exactly the 15 allowlisted columns, one ATL row. -/
def csv15 : Csv :=
  ⟨use_cols,
   [["2021-01-01", "AA", "ATL", "JFK", "1", "2", "3", "4", "5", "0", "0",
     "100", "9", "7", "8"]]⟩

/-- Every archive opens and contains csv15 as z.csv. -/
def zipOf15 : String → Option Archive := fun _ => some ⟨[("z.csv", csv15)]⟩

/-- No archive can be opened (every ZipFile call raises). -/
def zipOfNone : String → Option Archive := fun _ => none

/-- A filesystem already holding a (possibly stale) artifact. -/
def fsArt : Store FileData := [(processedFile "processed", FileData.parquet [])]

/-- The artifact row the csv15 scenario produces: all 15 columns. -/
def row15 : Row :=
  [("FlightDate", some "2021-01-01"), ("Reporting_Airline", some "AA"),
   ("Origin", some "ATL"), ("Dest", some "JFK"), ("DepTime", some "1"),
   ("ArrTime", some "2"), ("DepDelay", some "3"), ("ArrDelay", some "4"),
   ("ArrDelayMinutes", some "5"), ("Cancelled", some "0"),
   ("Diverted", some "0"), ("Distance", some "100"), ("AirTime", some "9"),
   ("CRSDepTime", some "7"), ("CRSArrTime", some "8")]

/-- A network where every period downloads successfully with a one-chunk body. -/
def oracleAll200 : Nat → Nat → DownloadEvent := fun _ _ => .resp 200 [1]

/-- A network answering HTTP 404 to every request. -/
def oracle404 : Nat → Nat → DownloadEvent := fun _ _ => .resp 404 []

/-- A network where months 1–10 succeed and months 11–12 answer HTTP 404. -/
def oracle2021 : Nat → Nat → DownloadEvent :=
  fun _ month => if month ≤ 10 then .resp 200 [1] else .resp 404 []

/-- A network where every download raises mid-stream after one written chunk. -/
def oracleWriteExn : Nat → Nat → DownloadEvent := fun _ _ => .writeExn [5]

/-! ## Store lemmas -/

@[simp] theorem storeLookup_write_self {α : Type} (fs : Store α) (p : String) (v : α) :
    storeLookup (storeWrite fs p v) p = some v := by
  simp [storeWrite, storeLookup]

theorem storeLookup_write_ne {α : Type} (fs : Store α) (p q : String) (v : α)
    (h : q ≠ p) : storeLookup (storeWrite fs p v) q = storeLookup fs q := by
  simp [storeWrite, storeLookup, h]

@[simp] theorem storeLookup_erase_self {α : Type} (fs : Store α) (p : String) :
    storeLookup (storeErase fs p) p = none := by
  induction fs with
  | nil => simp [storeErase, storeLookup]
  | cons e fs ih =>
    by_cases h : e.1 = p
    · simpa [storeErase, h] using ih
    · simp [storeErase, storeLookup, h, Ne.symm h, ih]

theorem storeLookup_erase_ne {α : Type} (fs : Store α) (p q : String)
    (h : q ≠ p) : storeLookup (storeErase fs p) q = storeLookup fs q := by
  induction fs with
  | nil => simp [storeErase]
  | cons e fs ih =>
    by_cases he : e.1 = p
    · simp [storeErase, he, ih, storeLookup, h]
    · simp only [storeErase, he, if_neg he, storeLookup]
      by_cases hq : q = e.1 <;> simp [hq, ih]

theorem storeExists_false_lookup {α : Type} {fs : Store α} {p : String}
    (h : storeExists fs p = false) : storeLookup fs p = none := by
  simpa [storeExists, Option.isSome_iff_exists] using h

theorem storeExists_write {α : Type} (fs : Store α) (p q : String) (v : α)
    (h : storeExists fs q = true) : storeExists (storeWrite fs p v) q = true := by
  by_cases hq : q = p
  · subst hq; simp [storeExists]
  · rw [storeExists, storeLookup_write_ne fs p q v hq]; exact h

theorem storeExists_erase {α : Type} (fs : Store α) (p q : String)
    (h : storeExists fs q = true) (hq : q ≠ p) :
    storeExists (storeErase fs p) q = true := by
  rw [storeExists, storeLookup_erase_ne fs p q hq]; exact h

/-! ## Fetcher lemmas

Branch equations for the loop body, then invariants of the fold. -/

theorem fetchStep_exists_eq (oracle : Nat → Nat → DownloadEvent) (dir : String)
    (st : FetchResult) (ym : Nat × Nat)
    (h : storeExists st.fs (filePath dir ym.1 ym.2) = true) :
    fetchStep oracle dir st ym
      = { st with successful_downloads :=
            st.successful_downloads ++ [filePath dir ym.1 ym.2] } := by
  simp [fetchStep, h]

theorem fetchStep_ok_eq (oracle : Nat → Nat → DownloadEvent) (dir : String)
    (st : FetchResult) (ym : Nat × Nat) (body : List Nat)
    (h : storeExists st.fs (filePath dir ym.1 ym.2) = false)
    (ho : oracle ym.1 ym.2 = .resp 200 body) :
    fetchStep oracle dir st ym
      = { fs := storeWrite st.fs (filePath dir ym.1 ym.2) body,
          successful_downloads :=
            st.successful_downloads ++ [filePath dir ym.1 ym.2],
          requests := st.requests + 1 } := by
  simp [fetchStep, h, ho]

theorem fetchStep_bad_status_eq (oracle : Nat → Nat → DownloadEvent) (dir : String)
    (st : FetchResult) (ym : Nat × Nat) (status : Nat) (body : List Nat)
    (h : storeExists st.fs (filePath dir ym.1 ym.2) = false)
    (ho : oracle ym.1 ym.2 = .resp status body) (hs : status ≠ 200) :
    fetchStep oracle dir st ym = { st with requests := st.requests + 1 } := by
  simp [fetchStep, h, ho, hs]

theorem fetchStep_reqExn_eq (oracle : Nat → Nat → DownloadEvent) (dir : String)
    (st : FetchResult) (ym : Nat × Nat)
    (h : storeExists st.fs (filePath dir ym.1 ym.2) = false)
    (ho : oracle ym.1 ym.2 = .reqExn) :
    fetchStep oracle dir st ym = { st with requests := st.requests + 1 } := by
  simp [fetchStep, h, ho]

theorem fetchStep_writeExn_eq (oracle : Nat → Nat → DownloadEvent) (dir : String)
    (st : FetchResult) (ym : Nat × Nat) (w : List Nat)
    (h : storeExists st.fs (filePath dir ym.1 ym.2) = false)
    (ho : oracle ym.1 ym.2 = .writeExn w) :
    fetchStep oracle dir st ym
      = { st with
          fs := storeErase (storeWrite st.fs (filePath dir ym.1 ym.2) w)
                  (filePath dir ym.1 ym.2),
          requests := st.requests + 1 } := by
  simp [fetchStep, h, ho]

theorem fetchStep_recorded_exists (oracle : Nat → Nat → DownloadEvent)
    (dir : String) (st : FetchResult) (ym : Nat × Nat)
    (h : ∀ p ∈ st.successful_downloads, storeExists st.fs p = true) :
    ∀ p ∈ (fetchStep oracle dir st ym).successful_downloads,
      storeExists (fetchStep oracle dir st ym).fs p = true := by
  intro p hp
  by_cases hex : storeExists st.fs (filePath dir ym.1 ym.2) = true
  · rw [fetchStep_exists_eq oracle dir st ym hex] at hp ⊢
    rcases List.mem_append.mp hp with hp | hp
    · exact h p hp
    · simp only [List.mem_singleton] at hp; subst hp; exact hex
  · have hex' : storeExists st.fs (filePath dir ym.1 ym.2) = false :=
      Bool.not_eq_true _ ▸ eq_false_of_ne_true hex
    have hnone := storeExists_false_lookup hex'
    cases ho : oracle ym.1 ym.2 with
    | resp status body =>
      by_cases hs : status = 200
      · subst hs
        rw [fetchStep_ok_eq oracle dir st ym body hex' ho] at hp ⊢
        rcases List.mem_append.mp hp with hp | hp
        · exact storeExists_write _ _ _ _ (h p hp)
        · simp only [List.mem_singleton] at hp; subst hp
          simp [storeExists]
      · rw [fetchStep_bad_status_eq oracle dir st ym status body hex' ho hs] at hp ⊢
        exact h p hp
    | reqExn =>
      rw [fetchStep_reqExn_eq oracle dir st ym hex' ho] at hp ⊢
      exact h p hp
    | writeExn w =>
      rw [fetchStep_writeExn_eq oracle dir st ym w hex' ho] at hp ⊢
      have hpe := h p hp
      have hpne : p ≠ filePath dir ym.1 ym.2 := by
        intro he; rw [he, storeExists, hnone] at hpe; exact Bool.noConfusion hpe
      exact storeExists_erase _ _ _ (storeExists_write _ _ _ _ hpe) hpne

theorem foldl_recorded_exists (oracle : Nat → Nat → DownloadEvent) (dir : String)
    (ps : List (Nat × Nat)) :
    ∀ st : FetchResult, (∀ p ∈ st.successful_downloads, storeExists st.fs p = true) →
      ∀ p ∈ (ps.foldl (fetchStep oracle dir) st).successful_downloads,
        storeExists ((ps.foldl (fetchStep oracle dir) st)).fs p = true := by
  induction ps with
  | nil => intro st h; exact h
  | cons ym ps ih =>
    intro st h
    exact ih (fetchStep oracle dir st ym) (fetchStep_recorded_exists oracle dir st ym h)

theorem foldl_all_exist (oracle : Nat → Nat → DownloadEvent) (dir : String)
    (ps : List (Nat × Nat)) :
    ∀ st : FetchResult, (∀ ym ∈ ps, storeExists st.fs (filePath dir ym.1 ym.2) = true) →
      ps.foldl (fetchStep oracle dir) st
        = { st with successful_downloads :=
              st.successful_downloads ++ ps.map (fun ym => filePath dir ym.1 ym.2) } := by
  induction ps with
  | nil => intro st _; simp
  | cons ym ps ih =>
    intro st h
    rw [List.foldl_cons, fetchStep_exists_eq oracle dir st ym (h ym (List.mem_cons_self ym ps)),
      ih { st with successful_downloads :=
            st.successful_downloads ++ [filePath dir ym.1 ym.2] }
        (fun ym' h' => h ym' (List.mem_cons_of_mem _ h'))]
    simp

theorem fetchStep_frame (oracle : Nat → Nat → DownloadEvent) (dir : String)
    (fs0 : Store (List Nat)) (st : FetchResult) (ym : Nat × Nat)
    (h : ∀ p c, storeLookup fs0 p = some c → storeLookup st.fs p = some c) :
    ∀ p c, storeLookup fs0 p = some c →
      storeLookup (fetchStep oracle dir st ym).fs p = some c := by
  intro p c hp
  have hst := h p c hp
  by_cases hex : storeExists st.fs (filePath dir ym.1 ym.2) = true
  · rw [fetchStep_exists_eq oracle dir st ym hex]; exact hst
  · have hex' : storeExists st.fs (filePath dir ym.1 ym.2) = false :=
      Bool.not_eq_true _ ▸ eq_false_of_ne_true hex
    have hnone := storeExists_false_lookup hex'
    have hpne : p ≠ filePath dir ym.1 ym.2 := by
      intro he; rw [he, hnone] at hst; exact Option.noConfusion hst
    cases ho : oracle ym.1 ym.2 with
    | resp status body =>
      by_cases hs : status = 200
      · subst hs
        rw [fetchStep_ok_eq oracle dir st ym body hex' ho]
        show storeLookup (storeWrite st.fs (filePath dir ym.1 ym.2) body) p = some c
        rw [storeLookup_write_ne _ _ _ _ hpne]; exact hst
      · rw [fetchStep_bad_status_eq oracle dir st ym status body hex' ho hs]; exact hst
    | reqExn => rw [fetchStep_reqExn_eq oracle dir st ym hex' ho]; exact hst
    | writeExn w =>
      rw [fetchStep_writeExn_eq oracle dir st ym w hex' ho]
      show storeLookup (storeErase (storeWrite st.fs (filePath dir ym.1 ym.2) w)
        (filePath dir ym.1 ym.2)) p = some c
      rw [storeLookup_erase_ne _ _ _ hpne, storeLookup_write_ne _ _ _ _ hpne]
      exact hst

theorem foldl_frame (oracle : Nat → Nat → DownloadEvent) (dir : String)
    (fs0 : Store (List Nat)) (ps : List (Nat × Nat)) :
    ∀ st : FetchResult, (∀ p c, storeLookup fs0 p = some c → storeLookup st.fs p = some c) →
      ∀ p c, storeLookup fs0 p = some c →
        storeLookup ((ps.foldl (fetchStep oracle dir) st)).fs p = some c := by
  induction ps with
  | nil => intro st h; exact h
  | cons ym ps ih =>
    intro st h
    exact ih (fetchStep oracle dir st ym) (fetchStep_frame oracle dir fs0 st ym h)

/-! ## Fetcher claim theorems -/

/-- C2 (amended): for every period in the inclusive range, if the Fetcher
records the period as successful (appends its path to
successful_downloads), then after the call a file exists at that path.  The
original claim additionally demanded that the file be non-empty, which the
code does not guarantee (see fetch_records_empty_file): the skip-if-present
branch checks only existence, and a 200 response with an empty body writes
an empty file. -/
theorem fetch_recorded_file_exists (oracle : Nat → Nat → DownloadEvent)
    (start_year end_year : Nat) (output_dir : String) (fs0 : Store (List Nat))
    (p : String)
    (hp : p ∈ (downloading_flight_data oracle start_year end_year output_dir
            fs0).successful_downloads) :
    storeExists (downloading_flight_data oracle start_year end_year output_dir
        fs0).fs p = true :=
  foldl_recorded_exists oracle output_dir (periods start_year end_year)
    { fs := fs0, successful_downloads := [], requests := 0 }
    (fun q hq => absurd hq (List.not_mem_nil q)) p hp

/-- Witness for fetch_recorded_file_exists: with every download succeeding,
the January 2021 path is recorded and a file exists there afterwards. -/
theorem fetch_recorded_file_exists_witness :
    filePath "data/raw" 2021 1 ∈
      (downloading_flight_data oracleAll200 2021 2021 "data/raw"
        []).successful_downloads ∧
    storeExists (downloading_flight_data oracleAll200 2021 2021 "data/raw"
        []).fs (filePath "data/raw" 2021 1) = true :=
  ⟨by decide,
    fetch_recorded_file_exists oracleAll200 2021 2021 "data/raw" [] _ (by decide)⟩

/-- C2 is false as stated: a pre-existing empty file at the January 2021
path is recorded as successful although the file recorded at that path is
empty (the code checks only Path.exists, not the size). -/
theorem fetch_records_empty_file :
    filePath "data/raw" 2021 1 ∈
      (downloading_flight_data oracle404 2021 2021 "data/raw"
        [(filePath "data/raw" 2021 1, [])]).successful_downloads ∧
    storeLookup (downloading_flight_data oracle404 2021 2021 "data/raw"
        [(filePath "data/raw" 2021 1, [])]).fs (filePath "data/raw" 2021 1)
      = some [] :=
  ⟨by decide, by decide⟩

/-- C4 (amended): if the first Fetcher run recorded every period in the
range as successful, a second run over the resulting filesystem performs
zero network requests and returns the same list of paths.  Without that
proviso the claim fails: periods that failed on the first run are requested
again on the second run (see fetch_second_run_retries). -/
theorem fetch_second_run_idempotent (oracle : Nat → Nat → DownloadEvent)
    (start_year end_year : Nat) (output_dir : String) (fs0 : Store (List Nat))
    (h : (downloading_flight_data oracle start_year end_year output_dir
            fs0).successful_downloads
          = (periods start_year end_year).map
              (fun ym => filePath output_dir ym.1 ym.2)) :
    (downloading_flight_data oracle start_year end_year output_dir
        (downloading_flight_data oracle start_year end_year output_dir
          fs0).fs).requests = 0 ∧
    (downloading_flight_data oracle start_year end_year output_dir
        (downloading_flight_data oracle start_year end_year output_dir
          fs0).fs).successful_downloads
      = (downloading_flight_data oracle start_year end_year output_dir
          fs0).successful_downloads := by
  have hall : ∀ ym ∈ periods start_year end_year,
      storeExists (downloading_flight_data oracle start_year end_year
          output_dir fs0).fs (filePath output_dir ym.1 ym.2) = true := by
    intro ym hym
    exact foldl_recorded_exists oracle output_dir (periods start_year end_year)
      { fs := fs0, successful_downloads := [], requests := 0 }
      (fun q hq => absurd hq (List.not_mem_nil q)) _
      (by show filePath output_dir ym.1 ym.2 ∈
            (downloading_flight_data oracle start_year end_year output_dir
              fs0).successful_downloads
          rw [h]; exact List.mem_map_of_mem _ hym)
  have h2 := foldl_all_exist oracle output_dir (periods start_year end_year)
    { fs := (downloading_flight_data oracle start_year end_year output_dir fs0).fs,
      successful_downloads := [], requests := 0 } hall
  refine ⟨?_, ?_⟩
  · show ((periods start_year end_year).foldl (fetchStep oracle output_dir)
      { fs := (downloading_flight_data oracle start_year end_year output_dir fs0).fs,
        successful_downloads := [], requests := 0 }).requests = 0
    rw [h2]
  · show ((periods start_year end_year).foldl (fetchStep oracle output_dir)
      { fs := (downloading_flight_data oracle start_year end_year output_dir fs0).fs,
        successful_downloads := [], requests := 0 }).successful_downloads = _
    rw [h2, h]
    simp

/-- Witness for fetch_second_run_idempotent: with every download
succeeding, the first 2021 run records all 12 periods, and the second run
makes no requests and returns the same paths. -/
theorem fetch_second_run_idempotent_witness :
    (downloading_flight_data oracleAll200 2021 2021 "data/raw"
        []).successful_downloads
      = (periods 2021 2021).map (fun ym => filePath "data/raw" ym.1 ym.2) ∧
    ((downloading_flight_data oracleAll200 2021 2021 "data/raw"
        (downloading_flight_data oracleAll200 2021 2021 "data/raw"
          []).fs).requests = 0 ∧
      (downloading_flight_data oracleAll200 2021 2021 "data/raw"
          (downloading_flight_data oracleAll200 2021 2021 "data/raw"
            []).fs).successful_downloads
        = (downloading_flight_data oracleAll200 2021 2021 "data/raw"
            []).successful_downloads) :=
  ⟨by decide,
    fetch_second_run_idempotent oracleAll200 2021 2021 "data/raw" [] (by decide)⟩

/-- C4 is false as stated: when every request of a fresh 2021 run answers
HTTP 404, the filesystem is unchanged, so an immediate second run issues 12
network requests rather than zero (it retries every period the first run
did not record). -/
theorem fetch_second_run_retries :
    (downloading_flight_data oracle404 2021 2021 "data/raw"
        (downloading_flight_data oracle404 2021 2021 "data/raw" []).fs).requests
      = 12 ∧
    (downloading_flight_data oracle404 2021 2021 "data/raw"
        (downloading_flight_data oracle404 2021 2021 "data/raw" []).fs).requests
      ≠ 0 :=
  ⟨by decide, by decide⟩

/-- C6: the per-period loop body on a download that raises (either the
request itself, or streaming to disk after some chunks were written, the
file not being present beforehand): the period is not recorded as
successful, no file remains at the period path, exactly the one request was
made (no retry), and no other path is touched. -/
theorem fetch_step_exception_cleanup (oracle : Nat → Nat → DownloadEvent)
    (dir : String) (st : FetchResult) (y m : Nat) (w : List Nat)
    (hne : storeExists st.fs (filePath dir y m) = false)
    (ho : oracle y m = .reqExn ∨ oracle y m = .writeExn w) :
    (fetchStep oracle dir st (y, m)).successful_downloads
        = st.successful_downloads ∧
    storeLookup (fetchStep oracle dir st (y, m)).fs (filePath dir y m) = none ∧
    (fetchStep oracle dir st (y, m)).requests = st.requests + 1 ∧
    ∀ q, q ≠ filePath dir y m →
      storeLookup (fetchStep oracle dir st (y, m)).fs q = storeLookup st.fs q := by
  rcases ho with ho | ho
  · rw [fetchStep_reqExn_eq oracle dir st (y, m) hne ho]
    exact ⟨rfl, storeExists_false_lookup hne, rfl, fun q _ => rfl⟩
  · rw [fetchStep_writeExn_eq oracle dir st (y, m) w hne ho]
    refine ⟨rfl, ?_, rfl, ?_⟩
    · show storeLookup (storeErase (storeWrite st.fs (filePath dir y m) w)
        (filePath dir y m)) (filePath dir y m) = none
      exact storeLookup_erase_self _ _
    · intro q hq
      show storeLookup (storeErase (storeWrite st.fs (filePath dir y m) w)
        (filePath dir y m)) q = storeLookup st.fs q
      rw [storeLookup_erase_ne _ _ _ hq, storeLookup_write_ne _ _ _ _ hq]

/-- Witness for fetch_step_exception_cleanup: a mid-stream failure for
January 2021 on an empty filesystem records nothing, leaves no file at the
period path, counts one request, and leaves an unrelated path alone. -/
theorem fetch_step_exception_cleanup_witness :
    (fetchStep oracleWriteExn "data/raw" ⟨[], [], 0⟩
        (2021, 1)).successful_downloads = [] ∧
    storeLookup (fetchStep oracleWriteExn "data/raw" ⟨[], [], 0⟩ (2021, 1)).fs
        (filePath "data/raw" 2021 1) = none ∧
    (fetchStep oracleWriteExn "data/raw" ⟨[], [], 0⟩ (2021, 1)).requests = 1 ∧
    storeLookup (fetchStep oracleWriteExn "data/raw" ⟨[], [], 0⟩ (2021, 1)).fs
        "data/raw/other.zip" = storeLookup ([] : Store (List Nat))
        "data/raw/other.zip" := by
  have h := fetch_step_exception_cleanup oracleWriteExn "data/raw" ⟨[], [], 0⟩
    2021 1 [5] (by decide) (Or.inr rfl)
  exact ⟨h.1, h.2.1, h.2.2.1, h.2.2.2 "data/raw/other.zip" (by decide)⟩

/-- C7: for start=2021, end=2021 on an empty directory, the Fetcher
attempts exactly 12 downloads (the period grid has 12 entries and 12
requests are issued); with months 1-10 succeeding and months 11-12
answering HTTP 404, the returned list has exactly 10 elements.  (In the
source every exception inside the loop body is caught, so a non-200 status
merely skips the period; the model has no escaping-exception channel on
this path.) -/
theorem fetch_scenario_12_attempts_10_recorded :
    (periods 2021 2021).length = 12 ∧
    (downloading_flight_data oracle2021 2021 2021 "data/raw" []).requests = 12 ∧
    (downloading_flight_data oracle2021 2021 2021 "data/raw"
        []).successful_downloads.length = 10 :=
  ⟨by decide, by decide, by decide⟩

/-- C10: the Fetcher never deletes or overwrites a file that existed before
the call: every pre-existing file still has its original content in the
final filesystem.  (A pre-existing period file takes the skip-and-record
branch, and the exception-path unlink only ever fires on a path that was
absent when its period began.) -/
theorem fetch_preserves_preexisting (oracle : Nat → Nat → DownloadEvent)
    (start_year end_year : Nat) (output_dir : String) (fs0 : Store (List Nat))
    (p : String) (c : List Nat) (h : storeLookup fs0 p = some c) :
    storeLookup (downloading_flight_data oracle start_year end_year output_dir
        fs0).fs p = some c :=
  foldl_frame oracle output_dir fs0 (periods start_year end_year)
    { fs := fs0, successful_downloads := [], requests := 0 }
    (fun _ _ hq => hq) p c h

/-- Witness for fetch_preserves_preexisting: a pre-existing file survives a
2021 run in which every download raises mid-stream (so the exception-path
unlink runs for every period). -/
theorem fetch_preserves_preexisting_witness :
    storeLookup [("data/raw/old.zip", [7])] "data/raw/old.zip" = some [7] ∧
    storeLookup (downloading_flight_data oracleWriteExn 2021 2021 "data/raw"
        [("data/raw/old.zip", [7])]).fs "data/raw/old.zip" = some [7] :=
  ⟨by decide,
    fetch_preserves_preexisting oracleWriteExn 2021 2021 "data/raw"
      [("data/raw/old.zip", [7])] "data/raw/old.zip" [7] (by decide)⟩

/-! ## Transformer lemmas -/

theorem cleanupCsvs_lookup_deleted (deleteFails : String → Bool) (d : String)
    (fs : Store FileData) (p : String)
    (h : (strStartsWith p (d ++ "/") && strEndsWith p ".csv" && !deleteFails p)
          = true) :
    storeLookup (cleanupCsvs deleteFails d fs) p = none := by
  induction fs with
  | nil => rfl
  | cons e fs ih =>
    by_cases he : p = e.1
    · subst he
      simp only [cleanupCsvs, List.filter_cons, h, Bool.not_true]
      exact ih
    · simp only [cleanupCsvs, List.filter_cons]
      cases hk : !(strStartsWith e.1 (d ++ "/") && strEndsWith e.1 ".csv"
          && !deleteFails e.1) with
      | false => exact ih
      | true => simp only [storeLookup, if_neg he]; exact ih

theorem cleanupCsvs_lookup_some (deleteFails : String → Bool) (d : String)
    (fs : Store FileData) (p : String) (v : FileData)
    (h : storeLookup (cleanupCsvs deleteFails d fs) p = some v) :
    storeLookup fs p = some v := by
  induction fs with
  | nil => exact h
  | cons e fs ih =>
    by_cases he : p = e.1
    · subst he
      cases hk : (strStartsWith e.1 (d ++ "/") && strEndsWith e.1 ".csv"
          && !deleteFails e.1) with
      | true =>
        rw [cleanupCsvs_lookup_deleted deleteFails d (e :: fs) e.1 hk] at h
        exact Option.noConfusion h
      | false =>
        simp only [cleanupCsvs, List.filter_cons, hk, Bool.not_false, if_pos,
          storeLookup, if_pos rfl] at h ⊢
        exact h
    · cases hk : (strStartsWith e.1 (d ++ "/") && strEndsWith e.1 ".csv"
          && !deleteFails e.1) with
      | true =>
        simp only [cleanupCsvs, List.filter_cons, hk, Bool.not_true] at h
        simp only [storeLookup, if_neg he]
        exact ih h
      | false =>
        simp only [cleanupCsvs, List.filter_cons, hk, Bool.not_false] at h
        simp only [storeLookup, if_neg he] at h ⊢
        exact ih h

theorem extractStep_none_eq (zipOf : String → Option Archive)
    (st : ExtractResult) (file : String) (hz : zipOf file = none) :
    extractStep zipOf st file = { st with opened := st.opened + 1 } := by
  simp [extractStep, hz]

theorem extractStep_nocsv_eq (zipOf : String → Option Archive)
    (st : ExtractResult) (file : String) (z : Archive)
    (hz : zipOf file = some z)
    (hf : z.entries.find? (fun e => strEndsWith e.1 ".csv") = none) :
    extractStep zipOf st file = { st with opened := st.opened + 1 } := by
  simp [extractStep, hz, hf]

theorem extractStep_found_eq (zipOf : String → Option Archive)
    (st : ExtractResult) (file : String) (z : Archive) (entry : String × Csv)
    (hz : zipOf file = some z)
    (hf : z.entries.find? (fun e => strEndsWith e.1 ".csv") = some entry) :
    extractStep zipOf st file
      = { fs := if storeExists st.fs (parentDir file ++ "/" ++ entry.1) then
                  st.fs
                else storeWrite st.fs (parentDir file ++ "/" ++ entry.1)
                  (FileData.csv entry.2),
          csv_files := st.csv_files ++ [parentDir file ++ "/" ++ entry.1],
          opened := st.opened + 1 } := by
  simp [extractStep, hz, hf]

theorem extractStep_lookup_some (zipOf : String → Option Archive)
    (st : ExtractResult) (file : String) (p : String) (v : FileData)
    (h : storeLookup (extractStep zipOf st file).fs p = some v) :
    storeLookup st.fs p = some v ∨ ∃ c, v = FileData.csv c := by
  rcases hz : zipOf file with _ | z
  · rw [extractStep_none_eq zipOf st file hz] at h; exact Or.inl h
  · rcases hf : z.entries.find? (fun e => strEndsWith e.1 ".csv") with _ | entry
    · rw [extractStep_nocsv_eq zipOf st file z hz hf] at h; exact Or.inl h
    · rw [extractStep_found_eq zipOf st file z entry hz hf] at h
      by_cases hex : storeExists st.fs (parentDir file ++ "/" ++ entry.1) = true
      · simp only [hex, if_pos] at h; exact Or.inl h
      · have hex' : storeExists st.fs (parentDir file ++ "/" ++ entry.1) = false :=
          Bool.not_eq_true _ ▸ eq_false_of_ne_true hex
        simp only [hex', Bool.false_eq_true, if_false] at h
        by_cases hp : p = parentDir file ++ "/" ++ entry.1
        · rw [hp, storeLookup_write_self] at h
          exact Or.inr ⟨entry.2, (Option.some.inj h).symm⟩
        · rw [storeLookup_write_ne _ _ _ _ hp] at h
          exact Or.inl h

theorem extractLoop_foldl_lookup_some (zipOf : String → Option Archive)
    (files : List String) :
    ∀ st : ExtractResult, ∀ p v,
      storeLookup (files.foldl (extractStep zipOf) st).fs p = some v →
      storeLookup st.fs p = some v ∨ ∃ c, v = FileData.csv c := by
  induction files with
  | nil => intro st p v h; exact Or.inl h
  | cons f files ih =>
    intro st p v h
    rcases ih (extractStep zipOf st f) p v h with h' | h'
    · exact extractStep_lookup_some zipOf st f p v h'
    · exact Or.inr h'

theorem extractStep_csv_header (zipOf : String → Option Archive)
    (st : ExtractResult) (file : String)
    (hz : ∀ f a, zipOf f = some a → ∀ e ∈ a.entries, use_cols ⊆ e.2.header)
    (hst : ∀ p c, storeLookup st.fs p = some (FileData.csv c) →
      use_cols ⊆ c.header) :
    ∀ p c, storeLookup (extractStep zipOf st file).fs p = some (FileData.csv c) →
      use_cols ⊆ c.header := by
  intro p c h
  rcases extractStep_lookup_some zipOf st file p (FileData.csv c) h with h' | _
  · exact hst p c h'
  · rcases hz' : zipOf file with _ | z
    · rw [extractStep_none_eq zipOf st file hz'] at h; exact hst p c h
    · rcases hf : z.entries.find? (fun e => strEndsWith e.1 ".csv") with _ | entry
      · rw [extractStep_nocsv_eq zipOf st file z hz' hf] at h; exact hst p c h
      · rw [extractStep_found_eq zipOf st file z entry hz' hf] at h
        by_cases hex : storeExists st.fs (parentDir file ++ "/" ++ entry.1) = true
        · simp only [hex, if_pos] at h; exact hst p c h
        · have hex' : storeExists st.fs (parentDir file ++ "/" ++ entry.1)
              = false := Bool.not_eq_true _ ▸ eq_false_of_ne_true hex
          simp only [hex', Bool.false_eq_true, if_false] at h
          by_cases hp : p = parentDir file ++ "/" ++ entry.1
          · rw [hp, storeLookup_write_self] at h
            have hc : FileData.csv entry.2 = FileData.csv c := Option.some.inj h
            have hc2 : entry.2 = c := by injection hc
            exact hc2 ▸ hz file z hz' entry (List.mem_of_find?_eq_some hf)
          · rw [storeLookup_write_ne _ _ _ _ hp] at h
            exact hst p c h

theorem extractLoop_foldl_csv_header (zipOf : String → Option Archive)
    (files : List String)
    (hz : ∀ f a, zipOf f = some a → ∀ e ∈ a.entries, use_cols ⊆ e.2.header) :
    ∀ st : ExtractResult,
      (∀ p c, storeLookup st.fs p = some (FileData.csv c) → use_cols ⊆ c.header) →
      ∀ p c, storeLookup (files.foldl (extractStep zipOf) st).fs p
          = some (FileData.csv c) → use_cols ⊆ c.header := by
  induction files with
  | nil => intro st hst; exact hst
  | cons f files ih =>
    intro st hst
    exact ih (extractStep zipOf st f) (extractStep_csv_header zipOf st f hz hst)

theorem extractStep_fails_eq (zipOf : String → Option Archive)
    (st : ExtractResult) (file : String) (h : extractFails zipOf file) :
    extractStep zipOf st file = { st with opened := st.opened + 1 } := by
  rcases h with h | ⟨a, ha, hf⟩
  · exact extractStep_none_eq zipOf st file h
  · exact extractStep_nocsv_eq zipOf st file a ha hf

theorem extractLoop_all_fail (zipOf : String → Option Archive)
    (files : List String) :
    ∀ st : ExtractResult, (∀ f ∈ files, extractFails zipOf f) →
      files.foldl (extractStep zipOf) st
        = { st with opened := st.opened + files.length } := by
  induction files with
  | nil => intro st _; simp
  | cons f files ih =>
    intro st h
    rw [List.foldl_cons, extractStep_fails_eq zipOf st f (h f (List.mem_cons_self f files)),
      ih { st with opened := st.opened + 1 }
        (fun f' h' => h f' (List.mem_cons_of_mem _ h'))]
    simp [Nat.add_assoc, Nat.add_comm 1 files.length]

theorem mem_loadRows (csvs : List Csv) (row : Row) (h : row ∈ loadRows csvs) :
    ∃ c ∈ csvs, ∃ raw ∈ c.rows, row = projectRow c.header raw := by
  induction csvs with
  | nil => exact absurd h (List.not_mem_nil row)
  | cons c cs ih =>
    rcases List.mem_append.mp h with h' | h'
    · rcases List.mem_map.mp h' with ⟨raw, hraw, heq⟩
      exact ⟨c, List.mem_cons_self c cs, raw, hraw, heq.symm⟩
    · rcases ih h' with ⟨c', hc', raw, hraw, heq⟩
      exact ⟨c', List.mem_cons_of_mem _ hc', raw, hraw, heq⟩

theorem mainFlights_mask (parseDate : String → Option String) (csvs : List Csv)
    (row : Row) (h : row ∈ mainFlights parseDate csvs) : rowMask row = true :=
  (List.mem_filter.mp h).2

theorem mainFlights_mem (parseDate : String → Option String) (csvs : List Csv)
    (row : Row) (h : row ∈ mainFlights parseDate csvs) :
    ∃ c ∈ csvs, ∃ raw ∈ c.rows, row = cleanRow parseDate (projectRow c.header raw) := by
  have h1 := (List.mem_filter.mp h).1
  rcases List.mem_map.mp h1 with ⟨row0, hrow0, heq⟩
  rcases mem_loadRows csvs row0 hrow0 with ⟨c, hc, raw, hraw, heq0⟩
  exact ⟨c, hc, raw, hraw, by rw [← heq, heq0]⟩

theorem cleanRow_keys (parseDate : String → Option String) (r : Row) :
    (cleanRow parseDate r).map Prod.fst = r.map Prod.fst := by
  induction r with
  | nil => rfl
  | cons kv r ih =>
    by_cases h : kv.1 = "FlightDate" <;> simp [cleanRow, h] <;>
      simpa [cleanRow] using ih

theorem projectRow_keys (header : List String) (raw : List String) :
    (projectRow header raw).map Prod.fst
      = header.filter (fun c => use_cols.contains c) := by
  rw [projectRow, List.map_map]
  have hid : ∀ l : List String,
      l.map (Prod.fst ∘ fun c => (c, (idxOf header c).bind fun i => raw.get? i))
        = l := by
    intro l
    induction l with
    | nil => rfl
    | cons a l ih => simp only [List.map_cons, ih, Function.comp_apply]
  exact hid _

theorem mem_filter_use_cols (header : List String) (col : String) :
    col ∈ header.filter (fun c => use_cols.contains c)
      ↔ col ∈ header ∧ col ∈ use_cols := by
  simp [List.mem_filter]

theorem readCsvFile_good_or_empty (fs : Store FileData) (p : String)
    (hfs : ∀ q c, storeLookup fs q = some (FileData.csv c) → use_cols ⊆ c.header) :
    use_cols ⊆ (readCsvFile fs p).header ∨ (readCsvFile fs p).rows = [] := by
  rcases hl : storeLookup fs p with _ | v
  · rw [readCsvFile, hl]; exact Or.inr rfl
  · cases v with
    | csv c =>
      rw [readCsvFile, hl]
      exact Or.inl (hfs p c hl)
    | parquet rows => rw [readCsvFile, hl]; exact Or.inr rfl

theorem extract_and_filter_exists_eq (zipOf : String → Option Archive)
    (parseDate : String → Option String) (dataDir : Option String)
    (deleteFails : String → Bool) (zip_files : List String)
    (processed_dir : String) (fs0 : Store FileData)
    (h : storeExists fs0 (processedFile processed_dir) = true) :
    extract_and_filter zipOf parseDate dataDir deleteFails zip_files
        processed_dir fs0
      = { fs := fs0, result := some (processedFile processed_dir),
          nameError := false, opened := 0 } := by
  simp [extract_and_filter, h]

theorem extract_and_filter_empty_eq (zipOf : String → Option Archive)
    (parseDate : String → Option String) (dataDir : Option String)
    (deleteFails : String → Bool) (zip_files : List String)
    (processed_dir : String) (fs0 : Store FileData)
    (h0 : storeExists fs0 (processedFile processed_dir) = false)
    (hemp : (extractLoop zipOf zip_files fs0).csv_files.isEmpty = true) :
    extract_and_filter zipOf parseDate dataDir deleteFails zip_files
        processed_dir fs0
      = { fs := (extractLoop zipOf zip_files fs0).fs, result := none,
          nameError := false, opened := (extractLoop zipOf zip_files fs0).opened } := by
  simp [extract_and_filter, h0, hemp]

theorem extract_and_filter_write_none_eq (zipOf : String → Option Archive)
    (parseDate : String → Option String) (deleteFails : String → Bool)
    (zip_files : List String) (processed_dir : String) (fs0 : Store FileData)
    (h0 : storeExists fs0 (processedFile processed_dir) = false)
    (hemp : (extractLoop zipOf zip_files fs0).csv_files.isEmpty = false) :
    extract_and_filter zipOf parseDate none deleteFails zip_files
        processed_dir fs0
      = { fs := storeWrite (extractLoop zipOf zip_files fs0).fs
            (processedFile processed_dir)
            (FileData.parquet (mainFlights parseDate
              ((extractLoop zipOf zip_files fs0).csv_files.map
                (readCsvFile (extractLoop zipOf zip_files fs0).fs)))),
          result := none, nameError := true,
          opened := (extractLoop zipOf zip_files fs0).opened } := by
  simp [extract_and_filter, h0, hemp]

theorem extract_and_filter_write_some_eq (zipOf : String → Option Archive)
    (parseDate : String → Option String) (deleteFails : String → Bool)
    (zip_files : List String) (processed_dir : String) (fs0 : Store FileData)
    (d : String)
    (h0 : storeExists fs0 (processedFile processed_dir) = false)
    (hemp : (extractLoop zipOf zip_files fs0).csv_files.isEmpty = false) :
    extract_and_filter zipOf parseDate (some d) deleteFails zip_files
        processed_dir fs0
      = { fs := cleanupCsvs deleteFails d
            (storeWrite (extractLoop zipOf zip_files fs0).fs
              (processedFile processed_dir)
              (FileData.parquet (mainFlights parseDate
                ((extractLoop zipOf zip_files fs0).csv_files.map
                  (readCsvFile (extractLoop zipOf zip_files fs0).fs))))),
          result := some (processedFile processed_dir), nameError := false,
          opened := (extractLoop zipOf zip_files fs0).opened } := by
  simp [extract_and_filter, h0, hemp]

/-- Whatever parquet rows sit at the artifact path after a run that did not
short-circuit: they are exactly the filtered main_flights table built from
the CSVs the extraction loop recorded. -/
theorem artifact_rows_eq (zipOf : String → Option Archive)
    (parseDate : String → Option String) (dataDir : Option String)
    (deleteFails : String → Bool) (zip_files : List String)
    (processed_dir : String) (fs0 : Store FileData) (rows : List Row)
    (h0 : storeExists fs0 (processedFile processed_dir) = false)
    (h : storeLookup (extract_and_filter zipOf parseDate dataDir deleteFails
          zip_files processed_dir fs0).fs (processedFile processed_dir)
        = some (FileData.parquet rows)) :
    rows = mainFlights parseDate
      ((extractLoop zipOf zip_files fs0).csv_files.map
        (readCsvFile (extractLoop zipOf zip_files fs0).fs)) := by
  by_cases hemp : (extractLoop zipOf zip_files fs0).csv_files.isEmpty = true
  · rw [extract_and_filter_empty_eq zipOf parseDate dataDir deleteFails
      zip_files processed_dir fs0 h0 hemp] at h
    rcases extractLoop_foldl_lookup_some zipOf zip_files
        { fs := fs0, csv_files := [], opened := 0 }
        (processedFile processed_dir) (FileData.parquet rows) h with h' | ⟨c, hc⟩
    · rw [storeExists_false_lookup h0] at h'
      exact Option.noConfusion h'
    · exact FileData.noConfusion hc
  · have hemp' : (extractLoop zipOf zip_files fs0).csv_files.isEmpty = false :=
      Bool.not_eq_true _ ▸ eq_false_of_ne_true hemp
    cases hd : dataDir with
    | none =>
      subst hd
      rw [extract_and_filter_write_none_eq zipOf parseDate deleteFails
        zip_files processed_dir fs0 h0 hemp'] at h
      have h' : storeLookup (storeWrite (extractLoop zipOf zip_files fs0).fs
            (processedFile processed_dir)
            (FileData.parquet (mainFlights parseDate
              ((extractLoop zipOf zip_files fs0).csv_files.map
                (readCsvFile (extractLoop zipOf zip_files fs0).fs)))))
          (processedFile processed_dir) = some (FileData.parquet rows) := h
      rw [storeLookup_write_self] at h'
      exact (FileData.parquet.inj (Option.some.inj h')).symm
    | some d =>
      subst hd
      rw [extract_and_filter_write_some_eq zipOf parseDate deleteFails
        zip_files processed_dir fs0 d h0 hemp'] at h
      have h2 := cleanupCsvs_lookup_some deleteFails d _ _ _ h
      rw [storeLookup_write_self] at h2
      exact (FileData.parquet.inj (Option.some.inj h2)).symm

/-! ## Transformer claim theorems -/

/-- C3: if the extraction loop yields zero extracted CSV files (every
archive fails to open or has no CSV member, or the input list is empty)
and the artifact is not already present, the Transformer returns None and
leaves the filesystem exactly as it was — in particular it writes no
output artifact. -/
theorem transform_zero_extracted (zipOf : String → Option Archive)
    (parseDate : String → Option String) (dataDir : Option String)
    (deleteFails : String → Bool) (zip_files : List String)
    (processed_dir : String) (fs0 : Store FileData)
    (h0 : storeExists fs0 (processedFile processed_dir) = false)
    (h : ∀ f ∈ zip_files, extractFails zipOf f) :
    (extract_and_filter zipOf parseDate dataDir deleteFails zip_files
        processed_dir fs0).result = none ∧
    (extract_and_filter zipOf parseDate dataDir deleteFails zip_files
        processed_dir fs0).fs = fs0 := by
  have hl := extractLoop_all_fail zipOf zip_files
    { fs := fs0, csv_files := [], opened := 0 } h
  have he : (extractLoop zipOf zip_files fs0).csv_files = [] := by
    show (zip_files.foldl (extractStep zipOf)
      { fs := fs0, csv_files := [], opened := 0 }).csv_files = []
    rw [hl]
  have hemp : (extractLoop zipOf zip_files fs0).csv_files.isEmpty = true := by
    rw [he]; rfl
  rw [extract_and_filter_empty_eq zipOf parseDate dataDir deleteFails
    zip_files processed_dir fs0 h0 hemp]
  refine ⟨rfl, ?_⟩
  show (zip_files.foldl (extractStep zipOf)
    { fs := fs0, csv_files := [], opened := 0 }).fs = fs0
  rw [hl]

/-- Witness for transform_zero_extracted: one unreadable archive, empty
target directory: no artifact path is returned and the filesystem is
untouched. -/
theorem transform_zero_extracted_witness :
    (extract_and_filter zipOfNone parseId (some "data/raw") neverFails
        ["data/raw/a.zip"] "processed" []).result = none ∧
    (extract_and_filter zipOfNone parseId (some "data/raw") neverFails
        ["data/raw/a.zip"] "processed" []).fs = [] :=
  transform_zero_extracted zipOfNone parseId (some "data/raw") neverFails
    ["data/raw/a.zip"] "processed" [] (by decide) (fun f _ => Or.inl rfl)

/-- C5: if the target artifact already exists, the Transformer returns its
path immediately, opens no archive, and leaves the filesystem unchanged;
hence running it again over the resulting filesystem returns the very same
result. -/
theorem transform_short_circuit (zipOf : String → Option Archive)
    (parseDate : String → Option String) (dataDir : Option String)
    (deleteFails : String → Bool) (zip_files : List String)
    (processed_dir : String) (fs0 : Store FileData)
    (h : storeExists fs0 (processedFile processed_dir) = true) :
    extract_and_filter zipOf parseDate dataDir deleteFails zip_files
        processed_dir fs0
      = { fs := fs0, result := some (processedFile processed_dir),
          nameError := false, opened := 0 } ∧
    extract_and_filter zipOf parseDate dataDir deleteFails zip_files
        processed_dir
        (extract_and_filter zipOf parseDate dataDir deleteFails zip_files
          processed_dir fs0).fs
      = extract_and_filter zipOf parseDate dataDir deleteFails zip_files
          processed_dir fs0 := by
  have h1 := extract_and_filter_exists_eq zipOf parseDate dataDir deleteFails
    zip_files processed_dir fs0 h
  refine ⟨h1, ?_⟩
  rw [h1]
  show extract_and_filter zipOf parseDate dataDir deleteFails zip_files
      processed_dir fs0
    = { fs := fs0, result := some (processedFile processed_dir),
        nameError := false, opened := 0 }
  exact h1

/-- Witness for transform_short_circuit: with a stale artifact already in
place, the call returns its path with zero archives opened and an unchanged
filesystem, and a rerun is identical. -/
theorem transform_short_circuit_witness :
    storeExists fsArt (processedFile "processed") = true ∧
    (extract_and_filter zipOfATL parseId (some "data/raw") neverFails
        ["data/raw/a.zip"] "processed" fsArt
      = { fs := fsArt, result := some (processedFile "processed"),
          nameError := false, opened := 0 } ∧
    extract_and_filter zipOfATL parseId (some "data/raw") neverFails
        ["data/raw/a.zip"] "processed"
        (extract_and_filter zipOfATL parseId (some "data/raw") neverFails
          ["data/raw/a.zip"] "processed" fsArt).fs
      = extract_and_filter zipOfATL parseId (some "data/raw") neverFails
          ["data/raw/a.zip"] "processed" fsArt) :=
  ⟨by decide,
    transform_short_circuit zipOfATL parseId (some "data/raw") neverFails
      ["data/raw/a.zip"] "processed" fsArt (by decide)⟩

/-- C9 (amended): when the module global DATA_DIR is bound to a directory d
(as the script entry point binds it), the cleanup step never raises out of
the Transformer, and on a run that wrote the artifact it deletes every .csv
file under d whose deletion succeeds, silently keeping the others.  As
originally stated the claim is false: when DATA_DIR is unbound the cleanup
raises a NameError out of the Transformer after the artifact was written
(see transform_cleanup_raises).  Note also that the deletion sweeps all of
DATA_DIR, not specifically the directory holding the input archives. -/
theorem transform_cleanup_bound_no_raise (zipOf : String → Option Archive)
    (parseDate : String → Option String) (deleteFails : String → Bool)
    (zip_files : List String) (processed_dir : String) (fs0 : Store FileData)
    (d : String) :
    (extract_and_filter zipOf parseDate (some d) deleteFails zip_files
        processed_dir fs0).nameError = false ∧
    (∀ p, storeExists fs0 (processedFile processed_dir) = false →
      (extract_and_filter zipOf parseDate (some d) deleteFails zip_files
          processed_dir fs0).result = some (processedFile processed_dir) →
      strStartsWith p (d ++ "/") = true → strEndsWith p ".csv" = true →
      deleteFails p = false →
      storeLookup (extract_and_filter zipOf parseDate (some d) deleteFails
          zip_files processed_dir fs0).fs p = none) := by
  by_cases hex : storeExists fs0 (processedFile processed_dir) = true
  · rw [extract_and_filter_exists_eq zipOf parseDate (some d) deleteFails
      zip_files processed_dir fs0 hex]
    exact ⟨rfl, fun p h0 _ _ _ _ => Bool.noConfusion (hex.symm.trans h0)⟩
  · have hex' : storeExists fs0 (processedFile processed_dir) = false :=
      Bool.not_eq_true _ ▸ eq_false_of_ne_true hex
    by_cases hemp : (extractLoop zipOf zip_files fs0).csv_files.isEmpty = true
    · rw [extract_and_filter_empty_eq zipOf parseDate (some d) deleteFails
        zip_files processed_dir fs0 hex' hemp]
      exact ⟨rfl, fun p _ hres => Option.noConfusion hres⟩
    · have hemp' : (extractLoop zipOf zip_files fs0).csv_files.isEmpty = false :=
        Bool.not_eq_true _ ▸ eq_false_of_ne_true hemp
      rw [extract_and_filter_write_some_eq zipOf parseDate deleteFails
        zip_files processed_dir fs0 d hex' hemp']
      refine ⟨rfl, ?_⟩
      intro p _ _ hsw hew hdf
      exact cleanupCsvs_lookup_deleted deleteFails d _ p
        (by rw [hsw, hew, hdf]; rfl)

/-- Witness for transform_cleanup_bound_no_raise: with DATA_DIR bound to
data/raw, a successful run raises nothing and the extracted
data/raw/x.csv is gone afterwards. -/
theorem transform_cleanup_bound_no_raise_witness :
    (extract_and_filter zipOfATL parseId (some "data/raw") neverFails
        ["data/raw/a.zip"] "processed" []).nameError = false ∧
    storeLookup (extract_and_filter zipOfATL parseId (some "data/raw")
        neverFails ["data/raw/a.zip"] "processed" []).fs "data/raw/x.csv"
      = none := by
  have h := transform_cleanup_bound_no_raise zipOfATL parseId neverFails
    ["data/raw/a.zip"] "processed" [] "data/raw"
  exact ⟨h.1, h.2 "data/raw/x.csv" (by decide) (by decide) (by decide)
    (by decide) rfl⟩

/-- C9 is false as stated: with the DATA_DIR global unbound (the
Transformer called outside the script entry point), the run writes the
artifact and then the cleanup raises a NameError out of the Transformer, so
no artifact path is returned. -/
theorem transform_cleanup_raises :
    (extract_and_filter zipOfATL parseId none neverFails ["data/raw/a.zip"]
        "processed" []).nameError = true ∧
    (extract_and_filter zipOfATL parseId none neverFails ["data/raw/a.zip"]
        "processed" []).result = none ∧
    storeLookup (extract_and_filter zipOfATL parseId none neverFails
        ["data/raw/a.zip"] "processed" []).fs (processedFile "processed")
      = some (FileData.parquet [[("Origin", some "ATL"), ("Dest", some "JFK")]]) :=
  ⟨by decide, by decide, by decide⟩

/-- C1: every row of the parquet artifact a non-short-circuited run leaves
at the artifact path satisfies the origin-or-destination mask over the
fixed six airport codes; no row with neither code in the set is written. -/
theorem artifact_rows_touch_allowlist (zipOf : String → Option Archive)
    (parseDate : String → Option String) (dataDir : Option String)
    (deleteFails : String → Bool) (zip_files : List String)
    (processed_dir : String) (fs0 : Store FileData) (rows : List Row)
    (h0 : storeExists fs0 (processedFile processed_dir) = false)
    (h : storeLookup (extract_and_filter zipOf parseDate dataDir deleteFails
          zip_files processed_dir fs0).fs (processedFile processed_dir)
        = some (FileData.parquet rows)) :
    ∀ row ∈ rows, rowMask row = true := by
  intro row hrow
  rw [artifact_rows_eq zipOf parseDate dataDir deleteFails zip_files
    processed_dir fs0 rows h0 h] at hrow
  exact mainFlights_mask parseDate _ row hrow

/-- Witness for artifact_rows_touch_allowlist: a one-row run whose written
artifact row has Origin ATL, which the mask accepts. -/
theorem artifact_rows_touch_allowlist_witness :
    storeLookup (extract_and_filter zipOfATL parseId (some "data/raw")
        neverFails ["data/raw/a.zip"] "processed" []).fs
        (processedFile "processed")
      = some (FileData.parquet [[("Origin", some "ATL"), ("Dest", some "JFK")]]) ∧
    rowMask [("Origin", some "ATL"), ("Dest", some "JFK")] = true :=
  ⟨by decide,
    artifact_rows_touch_allowlist zipOfATL parseId (some "data/raw")
      neverFails ["data/raw/a.zip"] "processed" []
      [[("Origin", some "ATL"), ("Dest", some "JFK")]] (by decide) (by decide)
      [("Origin", some "ATL"), ("Dest", some "JFK")] (by decide)⟩

/-- C8 (amended): an artifact row carries exactly the allowlisted columns
its source CSV header provides: never a column outside the fixed 15, and
exactly the 15 (as a set) when every CSV readable in the run lists all 15
columns in its header.  As originally stated ("exactly 15 for every
combination of input CSV schemas") the claim is false: a CSV missing a
column yields rows without it (see artifact_missing_column). -/
theorem artifact_cols_match_allowlist (zipOf : String → Option Archive)
    (parseDate : String → Option String) (dataDir : Option String)
    (deleteFails : String → Bool) (zip_files : List String)
    (processed_dir : String) (fs0 : Store FileData) (rows : List Row)
    (hz : ∀ f a, zipOf f = some a → ∀ e ∈ a.entries, use_cols ⊆ e.2.header)
    (hfs : ∀ p c, storeLookup fs0 p = some (FileData.csv c) →
      use_cols ⊆ c.header)
    (h0 : storeExists fs0 (processedFile processed_dir) = false)
    (h : storeLookup (extract_and_filter zipOf parseDate dataDir deleteFails
          zip_files processed_dir fs0).fs (processedFile processed_dir)
        = some (FileData.parquet rows)) :
    ∀ row ∈ rows, ∀ col, col ∈ row.map Prod.fst ↔ col ∈ use_cols := by
  intro row hrow col
  rw [artifact_rows_eq zipOf parseDate dataDir deleteFails zip_files
    processed_dir fs0 rows h0 h] at hrow
  rcases mainFlights_mem parseDate _ row hrow with ⟨c, hc, raw, hraw, heq⟩
  rcases List.mem_map.mp hc with ⟨p, _, hcp⟩
  have hgood : use_cols ⊆ c.header ∨ c.rows = [] := by
    rw [← hcp]
    exact readCsvFile_good_or_empty (extractLoop zipOf zip_files fs0).fs p
      (extractLoop_foldl_csv_header zipOf zip_files hz
        { fs := fs0, csv_files := [], opened := 0 } hfs)
  rcases hgood with hgood | hgood
  · subst heq
    rw [cleanRow_keys, projectRow_keys, mem_filter_use_cols]
    constructor
    · rintro ⟨-, h2⟩; exact h2
    · intro h2; exact ⟨hgood h2, h2⟩
  · rw [hgood] at hraw
    exact absurd hraw (List.not_mem_nil raw)

/-- Witness for artifact_cols_match_allowlist: a run over a CSV listing all
15 allowlisted columns produces an artifact row that does carry AirTime. -/
theorem artifact_cols_match_allowlist_witness :
    storeLookup (extract_and_filter zipOf15 parseId (some "data/raw")
        neverFails ["data/raw/c.zip"] "processed" []).fs
        (processedFile "processed")
      = some (FileData.parquet [row15]) ∧
    ("AirTime" ∈ row15.map Prod.fst ↔ "AirTime" ∈ use_cols) :=
  ⟨by decide,
    artifact_cols_match_allowlist zipOf15 parseId (some "data/raw") neverFails
      ["data/raw/c.zip"] "processed" [] [row15]
      (by
        intro f a hf e he
        have ha : (⟨[("z.csv", csv15)]⟩ : Archive) = a := Option.some.inj hf
        rw [← ha] at he
        rw [List.mem_singleton.mp he]
        intro x hx
        exact hx)
      (fun p c hpc => Option.noConfusion hpc)
      (by decide) (by decide) row15 (by decide) "AirTime"⟩

/-- C8 is false as stated: with an input CSV whose header lacks AirTime,
the run writes a non-empty artifact whose row does not carry the AirTime
column, although AirTime is one of the 15 specified columns. -/
theorem artifact_missing_column :
    storeLookup (extract_and_filter zipOf14 parseId (some "data/raw")
        neverFails ["data/raw/b.zip"] "processed" []).fs
        (processedFile "processed")
      = some (FileData.parquet [row14]) ∧
    "AirTime" ∈ use_cols ∧ "AirTime" ∉ row14.map Prod.fst :=
  ⟨by decide, by decide, by decide⟩

end FlightPipeline
